import Mathlib

/-!
Verification of the spider2 data-share migration scripts.

The development shallowly embeds the Python sources:
`create_tables.py`, `create_databases.py`, `database_mapping.py`,
`merge_databases.py`, `utils.py` and `config.py`.

Modelling conventions:
* The warehouse (Snowflake) is an oracle `Warehouse`: a function from the
  SQL text sent through `cursor.execute` to either the fetched rows
  (`Except.ok`, a list of row names for the metadata queries) or a raised
  exception (`Except.error` with the message).
* Each embedded operation additionally returns the trace of SQL statements
  it actually issued, in issue order, so that "statement never executed"
  claims are statements about the trace.
* Python exceptions that escape a function are modelled by the function
  returning `Except.error`; callers that wrap the call in `try/except`
  pattern-match on that result.
* `DELIMITER` in `utils.py` is the fixed string `"__"`; Python's
  `s.split("__")` and `"__" in s` are embedded as structurally recursive
  functions on `List Char` (`splitDD`, `containsDD`) so that the kernel
  can evaluate them on concrete names.
-/

deriving instance DecidableEq for Except

/-- The warehouse oracle: the result of `cursor.execute(sql)` (plus
`fetchall`) for each SQL text.  `Except.ok rows` is a successful execution
returning `rows` (for `SHOW ...` queries the rows are the object names);
`Except.error msg` is a raised exception. -/
structure Warehouse where
  exec : String → Except String (List String)

/-- Python's `s.split("__")` on the character list of `s`: split at each
leftmost non-overlapping occurrence of the two-character delimiter. -/
def splitDD : List Char → List (List Char)
  | [] => [[]]
  | [c] => [[c]]
  | c1 :: c2 :: rest =>
    if c1 = '_' ∧ c2 = '_' then [] :: splitDD rest
    else
      match splitDD (c2 :: rest) with
      | p :: ps => (c1 :: p) :: ps
      | [] => [[c1]]

/-- Python's `"__" in s` on the character list of `s`. -/
def containsDD : List Char → Bool
  | [] => false
  | [_] => false
  | c1 :: c2 :: rest =>
    if c1 = '_' ∧ c2 = '_' then true else containsDD (c2 :: rest)

/-- `"__" in s` for a `String` (`DELIMITER in name` in the sources). -/
def containsDelim (s : String) : Bool := containsDD s.toList

/-- `s.split("__")` for a `String`, as a list of strings. -/
def pySplitDelim (s : String) : List String :=
  (splitDD s.toList).map (fun cs => ⟨cs⟩)

/-- `a, b = s.split("__")`: `some (a, b)` when the split yields exactly two
parts, `none` when the unpacking raises `ValueError`. -/
def splitPair (s : String) : Option (String × String) :=
  match pySplitDelim s with
  | [d, r] => some (d, r)
  | _ => none

/- ------------------------------------------------------------------
   create_tables.py  (nested mode: schema units with per-table statements)
   ------------------------------------------------------------------ -/

/-- Per-unit status in `create_tables.py` (`class Status(Enum)`). -/
inductive Status
  | SKIP
  | SUCCESS
  | ERROR
deriving DecidableEq, Repr

/-- The metadata query issued by `_check_schema_and_execute`. -/
def show_tables_sql (schema : String) : String :=
  "SHOW TABLES IN SCHEMA " ++ schema

/-- The schema-creation statement issued when the metadata query raises. -/
def create_schema_sql (schema : String) : String :=
  "CREATE SCHEMA IF NOT EXISTS " ++ schema

/-- `prepare_table_creation_sqls` of `create_tables.py`. -/
def prepare_table_creation_sqls (source_table target_table : String) : String :=
  "CREATE TABLE IF NOT EXISTS " ++ target_table ++ " AS SELECT * FROM " ++ source_table

/-- `execute_sql` of `create_tables.py`: the body of one inner-pool worker,
one `cursor.execute(sql)` call.  Its outcome (rows or raised exception) is
stored in the worker's `Future`. -/
def execute_sql (wh : Warehouse) (sql : String) : Except String (List String) :=
  wh.exec sql

/-- `execute_sqls` of `create_tables.py`: every statement in `sqls` is
submitted to the inner thread pool up front and attempted by some worker,
so the issued trace is the whole list.  The `as_completed` loop only
increments a counter and never calls `future.result()`, so an exception
raised by a statement stays inside its `Future` and never propagates:
each statement's outcome is discarded and `execute_sqls` returns normally
whatever the per-statement outcomes were. -/
def execute_sqls (wh : Warehouse) (sqls : List String) : List String :=
  sqls.map (fun s =>
    match execute_sql wh s with
    | .ok _ => s
    | .error _ => s)

/-- The code shared by both branches of the `try/except` around
`SHOW TABLES` in `_check_schema_and_execute`: compare the number of
already-created tables with the number of intended tables; skip on
equality, otherwise run `execute_sqls`.  The surrounding
`try ... except ... return Status.ERROR` never fires for statement
failures because `execute_sqls` swallows them, so this returns
`SUCCESS` whenever it executes. -/
def after_show (wh : Warehouse) (sqls created trace : List String) :
    Except String Status × List String :=
  if created.length = sqls.length then (.ok .SKIP, trace)
  else (.ok .SUCCESS, trace ++ execute_sqls wh sqls)

/-- `_check_schema_and_execute` of `create_tables.py`.  Returns the unit's
status, or `Except.error` when an exception escapes (only the
`CREATE SCHEMA` statement in the `except` branch can raise out of the
function), paired with the trace of issued SQL. -/
def check_schema_and_execute (wh : Warehouse) (schema : String) (sqls : List String) :
    Except String Status × List String :=
  if sqls.isEmpty then (.ok .SKIP, [])
  else
    match wh.exec (show_tables_sql schema) with
    | .ok created =>
      after_show wh sqls created [show_tables_sql schema]
    | .error _ =>
      match wh.exec (create_schema_sql schema) with
      | .error e => (.error e, [show_tables_sql schema, create_schema_sql schema])
      | .ok _ =>
        after_show wh sqls [] [show_tables_sql schema, create_schema_sql schema]

/-- `safe_check_schema_and_execute` of `create_tables.py`: an exception
escaping `_check_schema_and_execute` is caught and mapped to
`Status.ERROR`. -/
def safe_check_schema_and_execute (wh : Warehouse) (schema : String) (sqls : List String) :
    Status × List String :=
  match check_schema_and_execute wh schema sqls with
  | (.ok st, tr) => (st, tr)
  | (.error _, tr) => (.ERROR, tr)

/- Concrete warehouses used to evaluate the model on the claims' scenarios. -/

/-- The CTAS statement for table `i` in the C1 scenario. -/
def ctasC1 (i : String) : String :=
  prepare_table_creation_sqls ("SRC.SCH." ++ i) ("TGT.SCH." ++ i)

/-- Warehouse for the C1 scenario: the third CTAS raises, everything else
succeeds (the target schema exists and is empty). -/
def whC1 : Warehouse :=
  ⟨fun s => if s = ctasC1 "T3" then .error "SQL compilation error" else .ok []⟩

/-- Warehouse for the C4 nested-mode scenario: the `SHOW TABLES` metadata
query raises; every other statement succeeds. -/
def whC4 : Warehouse :=
  ⟨fun s => if s = show_tables_sql "TGT.SCH2" then .error "schema does not exist"
            else .ok []⟩

/-- C1: in nested mode, take one schema unit with 3 table statements where
the first two succeed and the third raises.  The claim states the unit's
outcome is Failed and exactly 2 of the 3 CTAS statements are executed.
The code disagrees: all 3 statements are submitted and attempted (the
trace contains all three), only 2 of the 3 succeed, and — because
`execute_sqls` never inspects its futures' results — the raised exception
is swallowed and the unit's outcome is `SUCCESS`, not an error outcome.
The `except` branch of `_check_schema_and_execute` that would return
`Status.ERROR` is unreachable for statement failures. -/
theorem c1_third_statement_failure_swallowed :
    (whC1.exec (ctasC1 "T3")).isOk = false
    ∧ (([ctasC1 "T1", ctasC1 "T2", ctasC1 "T3"].filter
        (fun s => (whC1.exec s).isOk)).length = 2)
    ∧ safe_check_schema_and_execute whC1 "TGT.SCH"
        [ctasC1 "T1", ctasC1 "T2", ctasC1 "T3"]
      = (.SUCCESS,
         [show_tables_sql "TGT.SCH", ctasC1 "T1", ctasC1 "T2", ctasC1 "T3"]) := by
  decide

/-- C5: a schema unit whose statement list is empty is `SKIP`ped and the
trace of issued SQL is empty: no existence query and no other SQL is sent
to the warehouse for that unit. -/
theorem c5_empty_unit_skipped_without_sql (wh : Warehouse) (schema : String) :
    safe_check_schema_and_execute wh schema [] = (.SKIP, []) := by
  simp [safe_check_schema_and_execute, check_schema_and_execute]

/- ------------------------------------------------------------------
   create_databases.py  (flat mode: one unit per target database)
   ------------------------------------------------------------------ -/

/-- The metadata query of `check_database_exists`. -/
def show_databases_sql (db : String) : String :=
  "SHOW DATABASES LIKE '" ++ db ++ "'"

/-- `check_database_exists` of `create_databases.py`: run the metadata
query and report whether `fetchone` returned a row.  An exception raised
by the query escapes the function. -/
def check_database_exists (wh : Warehouse) (db : String) : Except String Bool :=
  (wh.exec (show_databases_sql db)).map (fun rows => !rows.isEmpty)

/-- Python's `s.split(".")` on the character list of `s`. -/
def splitDot : List Char → List (List Char)
  | [] => [[]]
  | '.' :: rest => [] :: splitDot rest
  | c :: rest =>
    match splitDot rest with
    | p :: ps => (c :: p) :: ps
    | [] => [[c]]

/-- `s.split(".")` for a `String`. -/
def pySplitDot (s : String) : List String :=
  (splitDot s.toList).map (fun cs => ⟨cs⟩)

/-- `check_schema_exists` of `create_databases.py`: unpack the dotted
schema path (raising `ValueError` when it does not have exactly two
parts), switch role and database, and report whether the `SHOW SCHEMAS`
query returned a row.  Any raised exception escapes. -/
def check_schema_exists (wh : Warehouse) (adminRole schema_path : String) :
    Except String Bool :=
  match pySplitDot schema_path with
  | [dbName, schema] =>
    match wh.exec ("USE ROLE " ++ adminRole) with
    | .error e => .error e
    | .ok _ =>
      match wh.exec ("USE DATABASE " ++ dbName) with
      | .error e => .error e
      | .ok _ =>
        match wh.exec ("SHOW SCHEMAS LIKE '" ++ schema ++ "'") with
        | .error e => .error e
        | .ok rows => .ok (!rows.isEmpty)
  | _ => .error "ValueError: not enough values to unpack"

/-- The statement loop at the end of `exec_set_of_cmds`: execute the
commands in order; the first command that raises is logged and the
function returns `"FAILED"` at once (the failing command was attempted,
the ones after it are not); if every command succeeds it returns
`"DONE"`.  Paired with the trace of attempted commands. -/
def run_cmds_loop (wh : Warehouse) : List String → String × List String
  | [] => ("DONE", [])
  | c :: rest =>
    match wh.exec c with
    | .error _ => ("FAILED", [c])
    | .ok _ =>
      let p := run_cmds_loop wh rest
      (p.1, c :: p.2)

/-- The `schema_to_check` half of `exec_set_of_cmds`, reached once the
database check (if any) has not skipped the unit. -/
def exec_schema_check_then_run (wh : Warehouse) (cmds : List String)
    (schemaToCheck : Option String) (adminRole : String) :
    Except String (String × List String) :=
  match schemaToCheck with
  | none => .ok (run_cmds_loop wh cmds)
  | some sp =>
    match check_schema_exists wh adminRole sp with
    | .error e => .error e
    | .ok true => .ok ("SKIPPED", [])
    | .ok false => .ok (run_cmds_loop wh cmds)

/-- `exec_set_of_cmds` of `create_databases.py`.  The worker obtains a
fresh connection, runs the existence checks (returning `"SKIPPED"` when
the target exists; an exception raised by a check escapes the worker as
`Except.error`), then runs the statement loop.  The result is the status
string paired with the trace of attempted commands. -/
def exec_set_of_cmds (wh : Warehouse) (cmds : List String)
    (dbToCheck schemaToCheck : Option String) (adminRole : String) :
    Except String (String × List String) :=
  match dbToCheck with
  | none => exec_schema_check_then_run wh cmds schemaToCheck adminRole
  | some db =>
    match check_database_exists wh db with
    | .error e => .error e
    | .ok true => .ok ("SKIPPED", [])
    | .ok false => exec_schema_check_then_run wh cmds schemaToCheck adminRole

/-- The `try/except` around `future.result()` in `create_databases.main`:
a worker that returned yields its status string, a worker that raised is
mapped to `"ERROR"`. -/
def unit_outcome : Except String (String × List String) → String
  | .ok p => p.1
  | .error _ => "ERROR"

/-- The `as_completed` loop of `create_databases.main`: fill
`db_create_statuses` with one entry per future, in completion order.
Since the submitted databases are the distinct keys of
`dbs_setup_commands`, every dictionary write is to a fresh key, so the
dictionary is this association list. -/
def aggregateLoop : List (String × Except String (String × List String)) →
    List (String × String)
  | [] => []
  | (db, r) :: rest => (db, unit_outcome r) :: aggregateLoop rest

theorem aggregateLoop_eq_map (l : List (String × Except String (String × List String))) :
    aggregateLoop l = l.map (fun p => (p.1, unit_outcome p.2)) := by
  induction l with
  | nil => rfl
  | cons p rest ih => cases p; simp [aggregateLoop, ih]

theorem run_cmds_loop_all_ok (wh : Warehouse) (cmds : List String)
    (h : ∀ x ∈ cmds, (wh.exec x).isOk = true) :
    run_cmds_loop wh cmds = ("DONE", cmds) := by
  induction cmds with
  | nil => rfl
  | cons c rest ih =>
    have hc := h c (by simp)
    cases hx : wh.exec c with
    | error e => rw [hx] at hc; simp [Except.isOk, Except.toBool] at hc
    | ok v =>
      simp only [run_cmds_loop, hx]
      rw [ih (fun x hx2 => h x (by simp [hx2]))]

theorem run_cmds_loop_first_fail (wh : Warehouse) (pre : List String) (c : String)
    (post : List String) (hpre : ∀ x ∈ pre, (wh.exec x).isOk = true)
    (hc : (wh.exec c).isOk = false) :
    run_cmds_loop wh (pre ++ c :: post) = ("FAILED", pre ++ [c]) := by
  induction pre with
  | nil =>
    cases hx : wh.exec c with
    | error e => simp [run_cmds_loop, hx]
    | ok v => rw [hx] at hc; simp [Except.isOk, Except.toBool] at hc
  | cons a rest ih =>
    have ha := hpre a (by simp)
    cases hx : wh.exec a with
    | error e => rw [hx] at ha; simp [Except.isOk, Except.toBool] at ha
    | ok v =>
      have ih2 := ih (fun x hx2 => hpre x (by simp [hx2]))
      simp only [List.cons_append, run_cmds_loop, hx, List.append_eq]
      rw [ih2]

/-- C2: flat-mode statement runner, after the existence check passes
(`check_database_exists` returns `false`, `schema_to_check` is `None` as
in `create_databases.main`).  If every statement succeeds the result is
`DONE` with all statements attempted; if the statements split as
`pre ++ c :: post` with every statement of `pre` succeeding and `c`
raising, the result is `FAILED` and the attempted trace is `pre ++ [c]`:
the statements after the failing one are never executed. -/
theorem c2_flat_runner_fail_fast (wh : Warehouse) (db adminRole : String)
    (cmds : List String) (hdb : check_database_exists wh db = .ok false) :
    ((∀ x ∈ cmds, (wh.exec x).isOk = true) →
      exec_set_of_cmds wh cmds (some db) none adminRole = .ok ("DONE", cmds))
    ∧ (∀ pre c post, cmds = pre ++ c :: post →
        (∀ x ∈ pre, (wh.exec x).isOk = true) → (wh.exec c).isOk = false →
        exec_set_of_cmds wh cmds (some db) none adminRole
          = .ok ("FAILED", pre ++ [c])) := by
  constructor
  · intro hall
    simp only [exec_set_of_cmds, hdb, exec_schema_check_then_run]
    rw [run_cmds_loop_all_ok wh cmds hall]
  · intro pre c post hsplit hpre hc
    simp only [exec_set_of_cmds, hdb, exec_schema_check_then_run, hsplit]
    rw [run_cmds_loop_first_fail wh pre c post hpre hc]

/-- Warehouse for the C2 witness: the command `"BADCMD"` raises,
everything else (including the `SHOW DATABASES` check) succeeds with no
rows. -/
def whC2 : Warehouse :=
  ⟨fun s => if s = "BADCMD" then .error "boom" else .ok []⟩

/-- Witness for C2 at a concrete input: the database check finds no row,
the second of three commands raises, and the runner returns `FAILED`
having attempted only the first two commands. -/
theorem c2_flat_runner_fail_fast_witness :
    check_database_exists whC2 "NEWDB" = .ok false
    ∧ exec_set_of_cmds whC2 ["A", "BADCMD", "C"] (some "NEWDB") none "AR"
        = .ok ("FAILED", ["A", "BADCMD"]) :=
  ⟨by decide,
   (c2_flat_runner_fail_fast whC2 "NEWDB" "AR" ["A", "BADCMD", "C"] (by decide)).2
     ["A"] "BADCMD" ["C"] rfl (by decide) (by decide)⟩

theorem execute_sqls_eq_sqls (wh : Warehouse) (sqls : List String) :
    execute_sqls wh sqls = sqls := by
  induction sqls with
  | nil => rfl
  | cons s rest ih =>
    simp only [execute_sqls, List.map_cons] at ih ⊢
    cases h : execute_sql wh s <;> simp [h, ih]

/-- C3: a schema unit with a non-empty statement list is skipped exactly
when the `SHOW TABLES` metadata query succeeds (the target schema exists)
and returns exactly as many tables as the unit intends to create; and an
existing schema with fewer tables than intended is not skipped — the
unit's outcome is `SUCCESS` and all its table-creation statements are
issued. -/
theorem c3_skip_iff_schema_complete (wh : Warehouse) (schema : String)
    (sqls : List String) (hne : sqls ≠ []) :
    ((safe_check_schema_and_execute wh schema sqls).1 = .SKIP ↔
      ∃ created, wh.exec (show_tables_sql schema) = .ok created ∧
        created.length = sqls.length)
    ∧ (∀ created, wh.exec (show_tables_sql schema) = .ok created →
        created.length < sqls.length →
        safe_check_schema_and_execute wh schema sqls
          = (.SUCCESS, show_tables_sql schema :: sqls)) := by
  obtain ⟨a, as, rfl⟩ : ∃ a as, sqls = a :: as := by
    cases sqls with
    | nil => exact absurd rfl hne
    | cons a as => exact ⟨a, as, rfl⟩
  cases hshow : wh.exec (show_tables_sql schema) with
  | ok created =>
    by_cases hl : created.length = (a :: as).length
    · refine ⟨⟨fun _ => ⟨created, rfl, hl⟩, fun _ => ?_⟩, fun created2 h2 hlt => ?_⟩
      · simp [safe_check_schema_and_execute, check_schema_and_execute, after_show,
          hshow, hl]
      · injection h2 with h3
        subst h3
        exact absurd hl (Nat.ne_of_lt hlt)
    · have hl' : ¬created.length = as.length + 1 := by simpa using hl
      refine ⟨⟨fun hskip => ?_, fun hex => ?_⟩, fun created2 h2 hlt => ?_⟩
      · exfalso
        simp [safe_check_schema_and_execute, check_schema_and_execute, after_show,
          hshow, hl'] at hskip
      · obtain ⟨c2, hc2, hl2⟩ := hex
        injection hc2 with h3
        subst h3
        exact absurd hl2 hl
      · injection h2 with h3
        subst h3
        simp [safe_check_schema_and_execute, check_schema_and_execute, after_show,
          hshow, hl', execute_sqls_eq_sqls]
  | error e =>
    cases hcr : wh.exec (create_schema_sql schema) with
    | error e2 =>
      refine ⟨⟨fun hskip => ?_, fun hex => ?_⟩, fun created2 h2 hlt => ?_⟩
      · exfalso
        simp [safe_check_schema_and_execute, check_schema_and_execute, hshow, hcr]
          at hskip
      · obtain ⟨c2, hc2, -⟩ := hex
        exact Except.noConfusion hc2
      · exact Except.noConfusion h2
    | ok v =>
      refine ⟨⟨fun hskip => ?_, fun hex => ?_⟩, fun created2 h2 hlt => ?_⟩
      · exfalso
        simp [safe_check_schema_and_execute, check_schema_and_execute, after_show,
          hshow, hcr] at hskip
      · obtain ⟨c2, hc2, -⟩ := hex
        exact Except.noConfusion hc2
      · exact Except.noConfusion h2

/-- Warehouse for the C3 witness: the target schema exists and contains
one table `"A"`, every statement succeeds. -/
def whC3 : Warehouse :=
  ⟨fun s => if s = show_tables_sql "TGT.S3" then .ok ["A"] else .ok []⟩

/-- Witness for C3 at a concrete input: two intended tables, an existing
schema with one table — the unit is not skipped and both statements are
issued. -/
theorem c3_skip_iff_schema_complete_witness :
    (["x", "y"] : List String) ≠ []
    ∧ (((safe_check_schema_and_execute whC3 "TGT.S3" ["x", "y"]).1 = .SKIP ↔
        ∃ created, whC3.exec (show_tables_sql "TGT.S3") = .ok created ∧
          created.length = (["x", "y"] : List String).length)
      ∧ (∀ created, whC3.exec (show_tables_sql "TGT.S3") = .ok created →
          created.length < (["x", "y"] : List String).length →
          safe_check_schema_and_execute whC3 "TGT.S3" ["x", "y"]
            = (.SUCCESS, show_tables_sql "TGT.S3" :: ["x", "y"]))) :=
  ⟨by decide, c3_skip_iff_schema_complete whC3 "TGT.S3" ["x", "y"] (by decide)⟩

/-- C4 counterexample: a nested-mode schema unit whose `SHOW TABLES`
metadata query raises.  The claim says such a unit's outcome is `Error`
and the inconclusive check is never treated as "target does not exist"
followed by executing the statements.  The code does exactly that: it
catches the metadata-query exception, creates the schema, executes the
unit's statement, and the outcome is `SUCCESS`, not `ERROR`. -/
theorem c4_counterexample_show_error_executes_unit :
    (whC4.exec (show_tables_sql "TGT.SCH2")).isOk = false
    ∧ safe_check_schema_and_execute whC4 "TGT.SCH2" ["CTAS1"]
      = (.SUCCESS,
         [show_tables_sql "TGT.SCH2", create_schema_sql "TGT.SCH2", "CTAS1"]) := by
  decide

/-- C4 amended: in flat mode (`create_databases`), an error raised by the
`SHOW DATABASES` existence query escapes `exec_set_of_cmds` without any
statement being executed and the aggregator records the unit as `ERROR`.
In nested mode (`create_tables`), an error raised by the `SHOW TABLES`
existence query is instead treated as "schema does not exist": the schema
is created and the unit's statements are executed with outcome `SUCCESS`;
the unit's outcome is `ERROR` only when the `CREATE SCHEMA` statement
itself also raises. -/
theorem c4_amended_check_error_behaviour :
    (∀ (wh : Warehouse) (cmds : List String) (db adminRole : String)
        (schemaToCheck : Option String) (e : String),
      wh.exec (show_databases_sql db) = .error e →
      exec_set_of_cmds wh cmds (some db) schemaToCheck adminRole = .error e ∧
      unit_outcome (exec_set_of_cmds wh cmds (some db) schemaToCheck adminRole)
        = "ERROR")
    ∧ (∀ (wh : Warehouse) (schema : String) (sqls : List String) (e : String),
      sqls ≠ [] →
      wh.exec (show_tables_sql schema) = .error e →
      (∀ rows, wh.exec (create_schema_sql schema) = .ok rows →
        safe_check_schema_and_execute wh schema sqls
          = (.SUCCESS, show_tables_sql schema :: create_schema_sql schema :: sqls))
      ∧ (∀ e2, wh.exec (create_schema_sql schema) = .error e2 →
        safe_check_schema_and_execute wh schema sqls
          = (.ERROR, [show_tables_sql schema, create_schema_sql schema]))) := by
  constructor
  · intro wh cmds db adminRole stc e he
    have h1 : exec_set_of_cmds wh cmds (some db) stc adminRole = .error e := by
      simp [exec_set_of_cmds, check_database_exists, he, Except.map]
    exact ⟨h1, by rw [h1]; rfl⟩
  · intro wh schema sqls e hne hshow
    obtain ⟨a, as, rfl⟩ : ∃ a as, sqls = a :: as := by
      cases sqls with
      | nil => exact absurd rfl hne
      | cons a as => exact ⟨a, as, rfl⟩
    constructor
    · intro rows hcr
      simp [safe_check_schema_and_execute, check_schema_and_execute, after_show,
        hshow, hcr, execute_sqls_eq_sqls]
    · intro e2 hcr
      simp [safe_check_schema_and_execute, check_schema_and_execute, hshow, hcr]

/-- Warehouse for the flat half of the C4 witness: the `SHOW DATABASES`
existence query raises. -/
def whC4flat : Warehouse :=
  ⟨fun s => if s = show_databases_sql "DBX" then .error "network error" else .ok []⟩

/-- Witness for the amended C4 at concrete inputs: a flat-mode unit whose
database check raises escapes as that error and aggregates to `ERROR`; a
nested-mode unit whose `SHOW TABLES` raises (but whose `CREATE SCHEMA`
succeeds) runs its statement and ends `SUCCESS`. -/
theorem c4_amended_check_error_behaviour_witness :
    whC4flat.exec (show_databases_sql "DBX") = .error "network error"
    ∧ exec_set_of_cmds whC4flat ["c1"] (some "DBX") none "AR" = .error "network error"
    ∧ whC4.exec (show_tables_sql "TGT.SCH2") = .error "schema does not exist"
    ∧ safe_check_schema_and_execute whC4 "TGT.SCH2" ["CTAS1"]
        = (.SUCCESS,
           show_tables_sql "TGT.SCH2" :: create_schema_sql "TGT.SCH2" :: ["CTAS1"]) :=
  ⟨by decide,
   (c4_amended_check_error_behaviour.1 whC4flat ["c1"] "DBX" "AR" none
     "network error" (by decide)).1,
   by decide,
   (c4_amended_check_error_behaviour.2 whC4 "TGT.SCH2" ["CTAS1"]
     "schema does not exist" (by decide) (by decide)).1 [] (by decide)⟩

/-- C6: the aggregation loop of `create_databases.main`, run on any
completion order (any permutation of the submitted units, each unit
carrying either its returned status or the exception its worker raised),
produces a mapping whose keys are exactly the submitted unit ids, each
exactly once, and every unit whose worker raised appears with outcome
`"ERROR"` rather than being lost. -/
theorem c6_aggregator_one_entry_per_unit (submitted completed :
      List (String × Except String (String × List String)))
    (hperm : completed.Perm submitted)
    (hnd : (submitted.map Prod.fst).Nodup) :
    ((aggregateLoop completed).map Prod.fst).Perm (submitted.map Prod.fst)
    ∧ ((aggregateLoop completed).map Prod.fst).Nodup
    ∧ ∀ db e, (db, Except.error e) ∈ completed →
        (db, "ERROR") ∈ aggregateLoop completed := by
  have hkeys : (aggregateLoop completed).map Prod.fst = completed.map Prod.fst := by
    rw [aggregateLoop_eq_map, List.map_map]
    rfl
  have hp : (completed.map Prod.fst).Perm (submitted.map Prod.fst) := hperm.map Prod.fst
  refine ⟨?_, ?_, ?_⟩
  · rw [hkeys]
    exact hp
  · rw [hkeys]
    exact hp.symm.nodup hnd
  · intro db e hmem
    rw [aggregateLoop_eq_map]
    have hm := List.mem_map_of_mem (fun p => (p.1, unit_outcome p.2)) hmem
    simpa [unit_outcome] using hm

/-- Submitted units for the C6 witness. -/
def subC6 : List (String × Except String (String × List String)) :=
  [("A", .ok ("DONE", ["x"])), ("B", .error "boom")]

/-- The same units in a different completion order. -/
def compC6 : List (String × Except String (String × List String)) :=
  [("B", .error "boom"), ("A", .ok ("DONE", ["x"]))]

/-- Witness for C6 at a concrete input: two units completing in reverse
order, the second unit's worker having raised. -/
theorem c6_aggregator_one_entry_per_unit_witness :
    compC6.Perm subC6
    ∧ (subC6.map Prod.fst).Nodup
    ∧ (((aggregateLoop compC6).map Prod.fst).Perm (subC6.map Prod.fst)
       ∧ ((aggregateLoop compC6).map Prod.fst).Nodup
       ∧ ∀ db e, (db, Except.error e) ∈ compC6 →
           (db, "ERROR") ∈ aggregateLoop compC6) :=
  ⟨by decide, by decide,
   c6_aggregator_one_entry_per_unit subC6 compC6 (by decide) (by decide)⟩

/- ------------------------------------------------------------------
   Connection ownership (claim C7)
   ------------------------------------------------------------------ -/

/-- `get_sf_connection` / `connector.connect`: each call creates a new
connection object.  Connections are modelled as allocation numbers drawn
from a counter; two connections are the same object exactly when their
numbers are equal. -/
def get_sf_connection (ctr : Nat) : Nat × Nat := (ctr, ctr + 1)

/-- Flat mode (`create_databases.main` with `exec_set_of_cmds`): each of
the `n` submitted workers begins by calling `get_sf_connection(config)`
itself, so each unit draws a fresh connection from the allocator. -/
def flat_mode_connections : Nat → Nat → List Nat
  | 0, _ => []
  | n + 1, ctr =>
    (get_sf_connection ctr).1 :: flat_mode_connections n (get_sf_connection ctr).2

/-- Nested mode (`create_tables.main`): `main` calls `get_sf_connection`
once and passes the same `conn` to every `safe_check_schema_and_execute`
worker it submits to the schema pool. -/
def nested_mode_connections (n ctr : Nat) : List Nat :=
  List.replicate n (get_sf_connection ctr).1

/-- C7 counterexample: in nested mode with two schema units, the two
distinct units (indices 0 and 1) use the same connection, contradicting
"nested-mode schema units do not share a connection with sibling schema
units". -/
theorem c7_counterexample_nested_units_share_connection :
    (0 : Nat) ≠ 1
    ∧ (nested_mode_connections 2 0).getD 0 7 = (nested_mode_connections 2 0).getD 1 8 := by
  decide

theorem flat_mode_connections_eq_range (n ctr : Nat) :
    flat_mode_connections n ctr = List.range' ctr n := by
  induction n generalizing ctr with
  | zero => rfl
  | succ n ih => simp [flat_mode_connections, get_sf_connection, List.range'_succ, ih]

/-- C7 amended: flat-mode database units each acquire a fresh connection —
the connections of the `n` workers are pairwise distinct.  Nested-mode
schema units, by contrast, all share the single connection created in
`create_tables.main`: any two of their connections are equal. -/
theorem c7_amended_connection_ownership (n ctr : Nat) :
    (flat_mode_connections n ctr).Nodup
    ∧ ∀ a ∈ nested_mode_connections n ctr, ∀ b ∈ nested_mode_connections n ctr,
        a = b := by
  constructor
  · rw [flat_mode_connections_eq_range]
    exact List.nodup_range' ctr n
  · intro a ha b hb
    rw [List.eq_of_mem_replicate ha, List.eq_of_mem_replicate hb]

/- ------------------------------------------------------------------
   create_databases.process_jsonl_file  (claim C8)
   ------------------------------------------------------------------ -/

/-- One parsed record of the JSONL mapping file (the fields of the
records emitted by `database_mapping.py` and consumed by the two
creation scripts). -/
structure MappingRecord where
  source_database : String
  source_schema : String
  target_database_name : String
  target_schema : String
  tables : List (String × String)
deriving DecidableEq

/-- `process_jsonl_file` of `create_databases.py`: walk the parsed
records in file order, `continue` past any record whose
`target_database_name` is `"EBI_CHEMBL"`, and append every other record
to the result. -/
def process_jsonl_file : List MappingRecord → List MappingRecord
  | [] => []
  | r :: rest =>
    if r.target_database_name = "EBI_CHEMBL" then process_jsonl_file rest
    else r :: process_jsonl_file rest

/-- The claim's wording of `process_jsonl_file`, for the refinement
comparison: exactly the records whose target database is not
`"EBI_CHEMBL"`, in file order. -/
def process_jsonl_file_spec (records : List MappingRecord) : List MappingRecord :=
  records.filter (fun r => r.target_database_name != "EBI_CHEMBL")

/-- C8: `process_jsonl_file` returns exactly the parsed records whose
`target_database_name` is not `"EBI_CHEMBL"`, in file order; records
targeting `"EBI_CHEMBL"` are silently excluded. -/
theorem c8_process_jsonl_filters_ebi_chembl (records : List MappingRecord) :
    process_jsonl_file records = process_jsonl_file_spec records := by
  induction records with
  | nil => rfl
  | cons r rest ih =>
    by_cases h : r.target_database_name = "EBI_CHEMBL"
    · simp [process_jsonl_file, process_jsonl_file_spec, List.filter_cons, h, ih]
    · simp [process_jsonl_file, process_jsonl_file_spec, List.filter_cons, h, ih]

/- ------------------------------------------------------------------
   database_mapping.py  (claim C9)
   ------------------------------------------------------------------ -/

/-- The `schema_json` dictionary built for one source schema in
`database_mapping.main`, with target names derived from the
database/schema pair `(dbName, realSchema)` currently bound to
`new_database_name` / `real_schema_name`. -/
def mkSchemaJson (sourceDb schemaName dbName realSchema : String)
    (tbls : List String) : MappingRecord :=
  { source_database := sourceDb
  , source_schema := schemaName
  , target_database_name := dbName
  , target_schema := dbName ++ "." ++ realSchema
  , tables := tbls.map (fun t =>
      (sourceDb ++ "." ++ schemaName ++ "." ++ t,
       dbName ++ "." ++ realSchema ++ "." ++ t)) }

/-- The per-schema loop of `database_mapping.main`.  `tbls` is the
`get_table_names` oracle (tables of each fully-qualified source schema);
the `Option (String × String)` state is the current binding of the local
variables `new_database_name` / `real_schema_name` (`none` before the
first successful split).  A successful `schema_name.split("__")` unpack
rebinds them; a `ValueError` is caught and only logged, leaving the
previous binding in place; if no binding exists yet, building
`target_fqn_schema` raises an unhandled `NameError` (`Except.error`). -/
def database_mapping_loop (tbls : String → List String) (sourceDb : String) :
    Option (String × String) → List String → Except Unit (List MappingRecord)
  | _, [] => .ok []
  | last, s :: rest =>
    match (splitPair s).orElse (fun _ => last) with
    | none => .error ()
    | some (d, r) =>
      (database_mapping_loop tbls sourceDb (some (d, r)) rest).map
        (fun tl => mkSchemaJson sourceDb s d r (tbls (sourceDb ++ "." ++ s)) :: tl)

theorem splitDD_of_no_delim : ∀ cs : List Char, containsDD cs = false →
    splitDD cs = [cs] := by
  intro cs
  induction cs with
  | nil => intro _; rfl
  | cons c1 rest ih =>
    cases rest with
    | nil => intro _; rfl
    | cons c2 rest2 =>
      intro h
      rw [containsDD] at h
      by_cases hc : c1 = '_' ∧ c2 = '_'
      · rw [if_pos hc] at h
        exact absurd h (by simp)
      · rw [if_neg hc] at h
        rw [splitDD, if_neg hc, ih h]

theorem splitPair_of_no_delim (s : String) (h : containsDelim s = false) :
    splitPair s = none := by
  unfold splitPair pySplitDelim
  rw [splitDD_of_no_delim s.toList h]
  rfl

/-- C9: in `database_mapping.main`, a source schema name without the
delimiter `"__"` makes the unpack raise a `ValueError` which is only
logged; the schema is still emitted as a mapping record built from the
database/schema pair left over from the most recent successful split
(the state `(d, r)` threaded by the loop), and processing continues with
the remaining schemas.  If no schema name has split successfully yet
(state `none`, i.e. the first schema name lacks the delimiter), the run
raises an unhandled error instead. -/
theorem c9_no_delimiter_reuses_stale_split (tbls : String → List String)
    (sourceDb d r s : String) (rest : List String)
    (hnd : containsDelim s = false) :
    (database_mapping_loop tbls sourceDb (some (d, r)) (s :: rest)
      = (database_mapping_loop tbls sourceDb (some (d, r)) rest).map
          (fun tl => mkSchemaJson sourceDb s d r (tbls (sourceDb ++ "." ++ s)) :: tl))
    ∧ database_mapping_loop tbls sourceDb none (s :: rest) = .error () := by
  have hsp := splitPair_of_no_delim s hnd
  constructor
  · simp [database_mapping_loop, hsp, Option.orElse]
  · simp [database_mapping_loop, hsp, Option.orElse]

/-- Witness for C9 at a concrete input: the schema name `"PLAIN"` has no
delimiter; with stale state `("D", "R")` it is still emitted from that
state, and with no state the loop errors. -/
theorem c9_no_delimiter_reuses_stale_split_witness :
    containsDelim "PLAIN" = false
    ∧ ((database_mapping_loop (fun _ => ["t"]) "SRC" (some ("D", "R")) ["PLAIN"]
        = (database_mapping_loop (fun _ => ["t"]) "SRC" (some ("D", "R")) []).map
            (fun tl => mkSchemaJson "SRC" "PLAIN" "D" "R"
              ((fun _ => ["t"]) ("SRC" ++ "." ++ "PLAIN")) :: tl))
      ∧ database_mapping_loop (fun _ => ["t"]) "SRC" none ["PLAIN"] = .error ()) :=
  ⟨by decide,
   c9_no_delimiter_reuses_stale_split (fun _ => ["t"]) "SRC" "D" "R" "PLAIN" []
     (by decide)⟩

/- ------------------------------------------------------------------
   merge_databases.py  (claim C10)
   ------------------------------------------------------------------ -/

/-- The `CREATE DATABASE IF NOT EXISTS` statement issued (when not a dry
run) at the start of `merge_database`. -/
def create_db_sql (outDb : String) : String :=
  "CREATE DATABASE IF NOT EXISTS " ++ outDb

/-- The `CREATE SCHEMA ... CLONE ...` statement for one source schema. -/
def clone_sql (outDb dbName s : String) : String :=
  "CREATE SCHEMA IF NOT EXISTS " ++ outDb ++ "." ++ dbName ++ "__" ++ s
    ++ " CLONE " ++ dbName ++ "." ++ s ++ ";"

/-- The per-schema loop of `merge_database`, over the retained
(non-`INFORMATION_SCHEMA`) schema names.  Result: the clone statements
executed (empty under `dry_run`, which only logs them) and whether the
loop raised the delimiter `ValueError`.  The check
`DELIMITER in schema_name or DELIMITER in database_name` runs at each
iteration and the raise aborts the loop at once. -/
def merge_database_loop (dbName outDb : String) (dryRun : Bool) :
    List String → List String × Bool
  | [] => ([], false)
  | s :: rest =>
    if containsDelim s || containsDelim dbName then ([], true)
    else
      let p := merge_database_loop dbName outDb dryRun rest
      ((if dryRun then p.1 else clone_sql outDb dbName s :: p.1), p.2)

/-- `merge_database` of `merge_databases.py`: create the output database
(executed when not a dry run), drop `INFORMATION_SCHEMA` from the schema
list returned by `get_schema_names`, and run the clone loop.  Result:
the executed SQL trace and whether the delimiter `ValueError` was
raised. -/
def merge_database (dbName outDb : String) (schemaNames : List String)
    (dryRun : Bool) : List String × Bool :=
  let p := merge_database_loop dbName outDb dryRun
    (schemaNames.filter (fun s => s != "INFORMATION_SCHEMA"))
  ((if dryRun then [] else [create_db_sql outDb]) ++ p.1, p.2)

/-- C10 counterexample: the source database name `"A__B"` contains the
delimiter, yet `merge_database` on a database whose only schema is
`INFORMATION_SCHEMA` raises no `ValueError` at all (the check lives
inside the per-schema loop, which never runs): the claim that a
delimiter in the source database name raises a `ValueError` fails. -/
theorem c10_counterexample_delimiter_db_no_schemas :
    containsDelim "A__B" = true
    ∧ merge_database "A__B" "OUT" ["INFORMATION_SCHEMA"] false
      = ([create_db_sql "OUT"], false) := by
  decide

/-- C10 amended: the delimiter check runs once per retained
(non-`INFORMATION_SCHEMA`) schema.  At the first retained schema for
which the schema name or the database name contains `"__"`, the
`ValueError` is raised, the offending schema and all schemas after it are
not cloned, and only the earlier clean schemas were cloned.  When there
is no retained schema, no `ValueError` is raised even if the database
name contains the delimiter. -/
theorem c10_amended_delimiter_check_per_schema :
    (∀ (dbName outDb : String) (dryRun : Bool) (schemaNames pre post : List String)
        (s : String),
      schemaNames.filter (fun x => x != "INFORMATION_SCHEMA") = pre ++ s :: post →
      (∀ x ∈ pre, (containsDelim x || containsDelim dbName) = false) →
      (containsDelim s || containsDelim dbName) = true →
      merge_database dbName outDb schemaNames dryRun
        = ((if dryRun then [] else [create_db_sql outDb])
            ++ (if dryRun then [] else pre.map (clone_sql outDb dbName)), true))
    ∧ (∀ (dbName outDb : String) (dryRun : Bool) (schemaNames : List String),
      schemaNames.filter (fun x => x != "INFORMATION_SCHEMA") = [] →
      merge_database dbName outDb schemaNames dryRun
        = ((if dryRun then [] else [create_db_sql outDb]), false)) := by
  have hloop : ∀ (dbName outDb : String) (dryRun : Bool) (pre : List String)
      (s : String) (post : List String),
      (∀ x ∈ pre, (containsDelim x || containsDelim dbName) = false) →
      (containsDelim s || containsDelim dbName) = true →
      merge_database_loop dbName outDb dryRun (pre ++ s :: post)
        = ((if dryRun then [] else pre.map (clone_sql outDb dbName)), true) := by
    intro dbName outDb dryRun pre s post hpre hs
    induction pre with
    | nil =>
      simp [merge_database_loop, hs]
    | cons x xs ih =>
      have hx := hpre x (by simp)
      have ih2 := ih (fun y hy => hpre y (by simp [hy]))
      simp only [List.cons_append, merge_database_loop, hx, List.append_eq,
        Bool.false_eq_true, if_false, ih2]
      cases dryRun <;> simp
  constructor
  · intro dbName outDb dryRun schemaNames pre post s hsplit hpre hs
    unfold merge_database
    rw [hsplit, hloop dbName outDb dryRun pre s post hpre hs]
  · intro dbName outDb dryRun schemaNames hsplit
    unfold merge_database
    rw [hsplit]
    simp [merge_database_loop]

/-- Witness for the amended C10 at concrete inputs: with retained
schemas `["CLEAN", "BAD__X", "AFTER"]`, the loop clones only `"CLEAN"`
and raises at `"BAD__X"` (nothing after it is cloned); with only
`INFORMATION_SCHEMA` present and a delimiter in the database name,
nothing is raised. -/
theorem c10_amended_delimiter_check_per_schema_witness :
    (["INFORMATION_SCHEMA", "CLEAN", "BAD__X", "AFTER"].filter
        (fun x => x != "INFORMATION_SCHEMA") = ["CLEAN"] ++ "BAD__X" :: ["AFTER"])
    ∧ merge_database "DB" "OUT" ["INFORMATION_SCHEMA", "CLEAN", "BAD__X", "AFTER"] false
        = ((if false then [] else [create_db_sql "OUT"])
            ++ (if false then [] else ["CLEAN"].map (clone_sql "OUT" "DB")), true)
    ∧ merge_database "A__B" "OUT" ["INFORMATION_SCHEMA"] true
        = ((if true then [] else [create_db_sql "OUT"]), false) :=
  ⟨by decide,
   c10_amended_delimiter_check_per_schema.1 "DB" "OUT" false
     ["INFORMATION_SCHEMA", "CLEAN", "BAD__X", "AFTER"] ["CLEAN"] ["AFTER"] "BAD__X"
     (by decide) (by decide) (by decide),
   c10_amended_delimiter_check_per_schema.2 "A__B" "OUT" true ["INFORMATION_SCHEMA"]
     (by decide)⟩
